import Mathlib

/-
Verification development for the Hansen et al. 1981 two-reservoir
energy-balance climate model repository.

The repository holds two near-duplicate Python modules,
`climate_model.py` and `hansen_et_al_1981.py`; each defines a class
`HansenEtAl1981` whose `run` method integrates mixed-layer and
deep-ocean temperature anomalies over a time series of radiative
forcings.  The embedding below translates that code shallowly:

  * pandas cell values are `Option ℚ` (`none` models NaN / a missing
    cell); all Python floats are modelled as exact rationals;
  * a DataFrame is a column-name list plus a list of rows, every row
    carrying its index label and an association list of named cells;
  * the object `self` is a `Model` record threaded explicitly;
  * the fallible part of `run` (the `set_index` call on the scenario
    frame, which raises `KeyError` when the `YEAR` column is absent)
    returns `Except String`;
  * `list(set(keys) ∩ set(cols))` is modelled as a dedup-then-filter;
    Python set enumeration order is unspecified, so the deterministic
    order chosen here is a modelling choice that fixes one stable
    enumeration, as any concrete interpreter run does.
-/

namespace ClimateModel

/-! Module-level default hyperparameter values of `climate_model.py`
(lines 14-41), as exact rationals. -/

def lmbd_DEFAULT : ℚ := 80 / 100

def K_DEFAULT : ℚ := 1 / 10000

def dm_DEFAULT : ℚ := 100

def dd_DEFAULT : ℚ := 900

def dt_DEFAULT : ℚ := 31536000

def Cm_DEFAULT : ℚ := 421800000

def Cd_DEFAULT : ℚ := 3796200000

def ht_DEFAULT : ℚ := 4218 / 10

def Tm_DEFAULT : ℚ := 0

def Td_DEFAULT : ℚ := 0

def alpha_DEFAULT : ℚ := 2 / 10000

def a_DEFAULT : ℚ := 3 / 1000

def b_DEFAULT : ℚ := 49 / 1000

/-- The attributes of a `HansenEtAl1981` instance: the thirteen fields
assigned in `__init__` (climate_model.py lines 59-71) plus the
`pre_industrial` constant assigned on line 75.  The class has no other
instance state. -/
structure Model where
  l : ℚ
  K : ℚ
  dm : ℚ
  dd : ℚ
  dt : ℚ
  Cm : ℚ
  Cd : ℚ
  ht : ℚ
  Tm : ℚ
  Td : ℚ
  alpha : ℚ
  a : ℚ
  b : ℚ
  pre_industrial : ℚ
deriving DecidableEq

/-- `HansenEtAl1981()` of climate_model.py: every keyword argument kept
at its module-level default, `pre_industrial` hardcoded to 0.07. -/
def init : Model :=
  { l := lmbd_DEFAULT, K := K_DEFAULT, dm := dm_DEFAULT, dd := dd_DEFAULT,
    dt := dt_DEFAULT, Cm := Cm_DEFAULT, Cd := Cd_DEFAULT, ht := ht_DEFAULT,
    Tm := Tm_DEFAULT, Td := Td_DEFAULT, alpha := alpha_DEFAULT,
    a := a_DEFAULT, b := b_DEFAULT, pre_industrial := 7 / 100 }

/-- `init_ocean_temp` (climate_model.py lines 77-79). -/
def init_ocean_temp (m : Model) (Tm Td : ℚ) : Model :=
  { m with Tm := Tm, Td := Td }

/-- A pandas cell: `none` models NaN (the missing-value marker). -/
abbrev Cell := Option ℚ

/-- One DataFrame row: its index label and its named cells. -/
structure FRow where
  idx : Cell
  cells : List (String × Cell)
deriving DecidableEq

/-- A pandas DataFrame: column names plus index-labelled rows. -/
structure Frame where
  cols : List String
  rows : List FRow
deriving DecidableEq

/-- `row[factor]` on a pandas row: a cell absent from the row reads as
NaN, exactly like an explicitly stored NaN. -/
def rowVal (cells : List (String × Cell)) (k : String) : Cell :=
  (cells.lookup k).getD none

/-- `scaling_factor[factor]` lookup; in `run` it is only ever applied to
keys of the dictionary, so the fallback value is never reached. -/
def cfgVal (cfg : List (String × ℚ)) (k : String) : ℚ :=
  (cfg.lookup k).getD 0

/-- `ssps_forcing_df.set_index('YEAR')` (climate_model.py line 95):
moves the `YEAR` column into the index, raising a `KeyError` when that
column is missing. -/
def setIndexYEAR (f : Frame) : Except String Frame :=
  if "YEAR" ∈ f.cols then
    .ok { cols := f.cols.erase "YEAR",
          rows := f.rows.map (fun r =>
            { idx := rowVal r.cells "YEAR",
              cells := r.cells.filter (fun p => p.1 ≠ "YEAR") }) }
  else
    .error "KeyError: YEAR"

/-- `pd.concat([historical_forcing_df, ssps_forcing_df])`
(climate_model.py line 96): rows appended, columns unioned. -/
def concatFrames (f g : Frame) : Frame :=
  { cols := f.cols ++ g.cols.filter (fun c => decide (c ∉ f.cols)),
    rows := f.rows ++ g.rows }

/-- `list(set(scaling_factor.keys()).intersection(set(forcing_df.columns)))`
(climate_model.py line 101), in one fixed enumeration order. -/
def forcingFactors (cfg : List (String × ℚ)) (cols : List String) : List String :=
  ((cfg.map Prod.fst).dedup).filter (fun k => decide (k ∈ cols))

/-- The two state-update statements of the loop body (climate_model.py
lines 120 and 124), in source order: `self.Td` is assigned first, and
the subsequent `self.Tm` assignment reads the already-updated `self.Td`.
The Python literal `0.5` is the exact rational 1/2. -/
def stepTemps (m : Model) (F : ℚ) : Model :=
  let m1 : Model :=
    { m with Td := m.Td + m.dt * m.ht * (m.Tm - m.Td) / (1/2 * m.Cd * (m.dm + m.dd)) }
  { m1 with Tm := m1.Tm + m1.dt * (F - m1.ht * (m1.Tm - m1.Td) / (1/2 * (m1.dm + m1.dd))
                    - m1.Tm / m1.l) / m1.Cm }

/-- One row of `results_df`: index label, the per-agent scaled forcing
values (stored only when `return_forcings` was requested), and the four
always-present fields `Forcing, Deep dT, Mixed dT, Pred Anom`. -/
structure ResultRow where
  idx : Cell
  forcingVals : List ℚ
  F : ℚ
  deepT : ℚ
  mixedT : ℚ
  anom : ℚ
deriving DecidableEq

/-- One iteration of the `for year, row in forcing_df.iterrows()` loop
(climate_model.py lines 112-133): aggregate the scaled forcings, update
the two temperatures, and record the result row. -/
def stepRow (cfg : List (String × ℚ)) (factors : List String) (retF : Bool)
    (m : Model) (r : FRow) : Model × ResultRow :=
  let fvals := factors.map (fun k => ((rowVal r.cells k).getD 0) * cfgVal cfg k)
  let F := fvals.sum
  let m1 := stepTemps m F
  (m1, { idx := r.idx, forcingVals := if retF then fvals else [],
         F := F, deepT := m1.Td, mixedT := m1.Tm,
         anom := m1.Tm - m1.pre_industrial })

/-- The whole iteration loop: threads the model state through the rows
and collects the result rows in order. -/
def runLoop (cfg : List (String × ℚ)) (factors : List String) (retF : Bool) :
    Model → List FRow → Model × List ResultRow
  | m, [] => (m, [])
  | m, r :: rest =>
    let p := stepRow cfg factors retF m r
    let q := runLoop cfg factors retF p.1 rest
    (q.1, p.2 :: q.2)

/-- The returned `results_df`: its per-agent column names (empty unless
`return_forcings` was requested) and its rows. -/
structure RunResult where
  agentCols : List String
  rows : List ResultRow
deriving DecidableEq

/-- The infallible tail of `run`, applied to the already-concatenated
forcing DataFrame (climate_model.py lines 100-135). -/
def runFrame (m : Model) (fdf : Frame) (cfg : List (String × ℚ)) (retF : Bool) :
    Model × RunResult :=
  let factors := forcingFactors cfg fdf.cols
  let p := runLoop cfg factors retF m fdf.rows
  (p.1, { agentCols := if retF then factors else [], rows := p.2 })

/-- `HansenEtAl1981.run` (climate_model.py lines 81-135).  The result is
the updated object state paired with the result table; the `KeyError`
raised by `set_index` on a scenario frame without a `YEAR` column is the
`.error` case, in which nothing is returned and the object state is not
touched. -/
def run (m : Model) (hist : Frame) (ssps : Option Frame)
    (cfg : List (String × ℚ)) (retF : Bool) :
    Except String (Model × RunResult) :=
  match ssps with
  | some sdf =>
    match setIndexYEAR sdf with
    | .error e => .error e
    | .ok sdf2 => .ok (runFrame m (concatFrames hist sdf2) cfg retF)
  | none => .ok (runFrame m hist cfg retF)

end ClimateModel

namespace H81

/-! Embedding of `hansen_et_al_1981.py`.  Its module-level defaults
(lines 14-41) are byte-identical to those of `climate_model.py`. -/

def lmbd_DEFAULT : ℚ := 80 / 100

def K_DEFAULT : ℚ := 1 / 10000

def dm_DEFAULT : ℚ := 100

def dd_DEFAULT : ℚ := 900

def dt_DEFAULT : ℚ := 31536000

def Cm_DEFAULT : ℚ := 421800000

def Cd_DEFAULT : ℚ := 3796200000

def ht_DEFAULT : ℚ := 4218 / 10

def Tm_DEFAULT : ℚ := 0

def Td_DEFAULT : ℚ := 0

def alpha_DEFAULT : ℚ := 2 / 10000

def a_DEFAULT : ℚ := 3 / 1000

def b_DEFAULT : ℚ := 49 / 1000

/-- A Python float-or-None value, as passed around by the constructor
and `set_model_params` of hansen_et_al_1981.py: `none` models `None`. -/
abbrev PyVal := Option ℚ

/-- The thirteen model-parameter attributes assigned by
`set_model_params` (hansen_et_al_1981.py lines 105-117).  Each can hold
`None`, since the constructor passes `None` through explicitly. -/
structure PyParams where
  l : PyVal
  K : PyVal
  dm : PyVal
  dd : PyVal
  dt : PyVal
  Cm : PyVal
  Cd : PyVal
  ht : PyVal
  Tm : PyVal
  Td : PyVal
  alpha : PyVal
  a : PyVal
  b : PyVal
deriving DecidableEq

/-- `set_model_params` (hansen_et_al_1981.py lines 74-117) with every
argument supplied explicitly: it overwrites all thirteen attributes with
exactly the values it was given. -/
def set_model_params (cs dif mld dod dt0 Cm0 Cd0 ht0 Tm0 Td0 al a0 b0 : PyVal) :
    PyParams :=
  { l := cs, K := dif, dm := mld, dd := dod, dt := dt0, Cm := Cm0, Cd := Cd0,
    ht := ht0, Tm := Tm0, Td := Td0, alpha := al, a := a0, b := b0 }

/-- `HansenEtAl1981()` of hansen_et_al_1981.py with no arguments: every
`__init__` keyword argument defaults to `None` (lines 47-49), and all
thirteen are passed positionally to `set_model_params` (lines 67-68), so
the `set_model_params` defaults are bypassed. -/
def initNoArgs : PyParams :=
  set_model_params none none none none none none none none none none none none none

/-- `set_model_params()` called with every argument omitted: Python then
substitutes the module-level defaults declared on lines 74-86. -/
def set_model_params_defaults : PyParams :=
  set_model_params (some lmbd_DEFAULT) (some K_DEFAULT) (some dm_DEFAULT)
    (some dd_DEFAULT) (some dt_DEFAULT) (some Cm_DEFAULT) (some Cd_DEFAULT)
    (some ht_DEFAULT) (some Tm_DEFAULT) (some Td_DEFAULT) (some alpha_DEFAULT)
    (some a_DEFAULT) (some b_DEFAULT)

/-! The `run` method of hansen_et_al_1981.py (lines 119-182) is embedded
below over the shared DataFrame types.  Both classes carry the same
attributes, so the numeric object state is the same `Model` record; the
method bodies are embedded separately, each from its own file. -/

/-- The two state-update statements (hansen_et_al_1981.py lines 165-166
and 170-171): `self.Td` is assigned first, then `self.Tm` is assigned
reading the already-updated `self.Td`. -/
def stepTemps (m : ClimateModel.Model) (F : ℚ) : ClimateModel.Model :=
  let m1 : ClimateModel.Model :=
    { m with Td := m.Td + m.dt * m.ht * (m.Tm - m.Td) / (1/2 * m.Cd * (m.dm + m.dd)) }
  { m1 with Tm := m1.Tm + m1.dt * (F - m1.ht * (m1.Tm - m1.Td) / (1/2 * (m1.dm + m1.dd))
                    - m1.Tm / m1.l) / m1.Cm }

/-- `list(set(scaling_factor.keys()).intersection(set(forcing_df.columns)))`
(hansen_et_al_1981.py lines 144-145). -/
def forcingFactors (cfg : List (String × ℚ)) (cols : List String) : List String :=
  ((cfg.map Prod.fst).dedup).filter (fun k => decide (k ∈ cols))

/-- One iteration of the row loop (hansen_et_al_1981.py lines 156-180). -/
def stepRow (cfg : List (String × ℚ)) (factors : List String) (retF : Bool)
    (m : ClimateModel.Model) (r : ClimateModel.FRow) :
    ClimateModel.Model × ClimateModel.ResultRow :=
  let fvals := factors.map (fun k =>
    ((ClimateModel.rowVal r.cells k).getD 0) * ClimateModel.cfgVal cfg k)
  let F := fvals.sum
  let m1 := stepTemps m F
  (m1, { idx := r.idx, forcingVals := if retF then fvals else [],
         F := F, deepT := m1.Td, mixedT := m1.Tm,
         anom := m1.Tm - m1.pre_industrial })

/-- The whole iteration loop of hansen_et_al_1981.py. -/
def runLoop (cfg : List (String × ℚ)) (factors : List String) (retF : Bool) :
    ClimateModel.Model → List ClimateModel.FRow →
      ClimateModel.Model × List ClimateModel.ResultRow
  | m, [] => (m, [])
  | m, r :: rest =>
    let p := stepRow cfg factors retF m r
    let q := runLoop cfg factors retF p.1 rest
    (q.1, p.2 :: q.2)

/-- The infallible tail of `run` (hansen_et_al_1981.py lines 143-182). -/
def runFrame (m : ClimateModel.Model) (fdf : ClimateModel.Frame)
    (cfg : List (String × ℚ)) (retF : Bool) :
    ClimateModel.Model × ClimateModel.RunResult :=
  let factors := forcingFactors cfg fdf.cols
  let p := runLoop cfg factors retF m fdf.rows
  (p.1, { agentCols := if retF then factors else [], rows := p.2 })

/-- `HansenEtAl1981.run` of hansen_et_al_1981.py (lines 119-182). -/
def run (m : ClimateModel.Model) (hist : ClimateModel.Frame)
    (ssps : Option ClimateModel.Frame) (cfg : List (String × ℚ)) (retF : Bool) :
    Except String (ClimateModel.Model × ClimateModel.RunResult) :=
  match ssps with
  | some sdf =>
    match ClimateModel.setIndexYEAR sdf with
    | .error e => .error e
    | .ok sdf2 => .ok (runFrame m (ClimateModel.concatFrames hist sdf2) cfg retF)
  | none => .ok (runFrame m hist cfg retF)

end H81

/-! Concrete inputs used by the evaluation theorems below. -/

/-- A state with the two reservoirs apart (`Tm = 1`, `Td = 0`) and every
physical parameter equal to 1, so one step is easy to compute exactly. -/
def mC1 : ClimateModel.Model :=
  { l := 1, K := 1, dm := 1, dd := 1, dt := 1, Cm := 1, Cd := 1, ht := 1,
    Tm := 1, Td := 0, alpha := 1, a := 1, b := 1, pre_industrial := 0 }

/-- A one-row forcing series whose single agent CO2 has raw value 1 at
year 2000. -/
def histC2 : ClimateModel.Frame :=
  { cols := ["CO2"], rows := [{ idx := some 2000, cells := [("CO2", some 1)] }] }

/-- Scaling configuration sending CO2 to scale factor 2. -/
def cfgC2 : List (String × ℚ) := [("CO2", 2)]

/-- Default result row used only as the `getD` fallback in statements
about the i-th emitted row; never reached when the index is in range. -/
def noRow : ClimateModel.ResultRow :=
  { idx := none, forcingVals := [], F := 0, deepT := 0, mixedT := 0, anom := 0 }

/-- Default forcing row used only as the `getD` fallback in statements. -/
def noFRow : ClimateModel.FRow := { idx := none, cells := [] }

/-- A series with columns CO2 and SOL whose single row has a NaN CO2
cell and SOL equal to 5. -/
def histC4 : ClimateModel.Frame :=
  { cols := ["CO2", "SOL"],
    rows := [{ idx := some 2000, cells := [("CO2", none), ("SOL", some 5)] }] }

/-- A scaling configuration naming CO2 and CH4; only CO2 also occurs in
`histC4`, and SOL has no scale factor. -/
def cfgC4 : List (String × ℚ) := [("CO2", 2), ("CH4", 3)]

/-- A state and parameter set violating the explicit-Euler step-size
bound: all parameters 1 except `dt = 10`, both reservoirs at 1. -/
def mC5 : ClimateModel.Model :=
  { l := 1, K := 1, dm := 1, dd := 1, dt := 10, Cm := 1, Cd := 1, ht := 1,
    Tm := 1, Td := 1, alpha := 1, a := 1, b := 1, pre_industrial := 0 }

/-- An all-zero scaling configuration. -/
def cfgC5 : List (String × ℚ) := [("CO2", 0)]

/-- The default-parameter model displaced to `Tm = 1`. -/
def mW5 : ClimateModel.Model := { ClimateModel.init with Tm := 1 }

/-! Helper lemmas shared by several claim theorems. -/

/-- The two embedded loop bodies agree step for step. -/
theorem h81_stepRow_eq (cfg : List (String × ℚ)) (factors : List String)
    (retF : Bool) (m : ClimateModel.Model) (r : ClimateModel.FRow) :
    H81.stepRow cfg factors retF m r = ClimateModel.stepRow cfg factors retF m r := rfl

/-- The two embedded iteration loops agree on every input. -/
theorem h81_runLoop_eq (cfg : List (String × ℚ)) (factors : List String)
    (retF : Bool) (rows : List ClimateModel.FRow) (m : ClimateModel.Model) :
    H81.runLoop cfg factors retF m rows = ClimateModel.runLoop cfg factors retF m rows := by
  induction rows generalizing m with
  | nil => rfl
  | cons r rest ih =>
    simp [H81.runLoop, ClimateModel.runLoop, h81_stepRow_eq, ih]

/-- C10: In hansen_et_al_1981.py, constructing `HansenEtAl1981` with no
arguments sets all thirteen model parameters to `None`, not to the
module-level defaults; those defaults take effect only when
`set_model_params` is called with its arguments omitted. -/
theorem c10_init_sets_params_to_none :
    (H81.initNoArgs.l = none ∧ H81.initNoArgs.K = none ∧ H81.initNoArgs.dm = none ∧
     H81.initNoArgs.dd = none ∧ H81.initNoArgs.dt = none ∧ H81.initNoArgs.Cm = none ∧
     H81.initNoArgs.Cd = none ∧ H81.initNoArgs.ht = none ∧ H81.initNoArgs.Tm = none ∧
     H81.initNoArgs.Td = none ∧ H81.initNoArgs.alpha = none ∧ H81.initNoArgs.a = none ∧
     H81.initNoArgs.b = none) ∧
    (H81.set_model_params_defaults.l = some H81.lmbd_DEFAULT ∧
     H81.set_model_params_defaults.K = some H81.K_DEFAULT ∧
     H81.set_model_params_defaults.dm = some H81.dm_DEFAULT ∧
     H81.set_model_params_defaults.dd = some H81.dd_DEFAULT ∧
     H81.set_model_params_defaults.dt = some H81.dt_DEFAULT ∧
     H81.set_model_params_defaults.Cm = some H81.Cm_DEFAULT ∧
     H81.set_model_params_defaults.Cd = some H81.Cd_DEFAULT ∧
     H81.set_model_params_defaults.ht = some H81.ht_DEFAULT ∧
     H81.set_model_params_defaults.Tm = some H81.Tm_DEFAULT ∧
     H81.set_model_params_defaults.Td = some H81.Td_DEFAULT ∧
     H81.set_model_params_defaults.alpha = some H81.alpha_DEFAULT ∧
     H81.set_model_params_defaults.a = some H81.a_DEFAULT ∧
     H81.set_model_params_defaults.b = some H81.b_DEFAULT) :=
  ⟨⟨rfl, rfl, rfl, rfl, rfl, rfl, rfl, rfl, rfl, rfl, rfl, rfl, rfl⟩,
   ⟨rfl, rfl, rfl, rfl, rfl, rfl, rfl, rfl, rfl, rfl, rfl, rfl, rfl⟩⟩

/-- C8: the `run` methods of the two files implement the same logic:
for equal parameters, equal initial state and equal inputs they return
the same result table and the same final state. -/
theorem c8_two_files_same_run (m : ClimateModel.Model) (hist : ClimateModel.Frame)
    (ssps : Option ClimateModel.Frame) (cfg : List (String × ℚ)) (retF : Bool) :
    H81.run m hist ssps cfg retF = ClimateModel.run m hist ssps cfg retF := by
  cases ssps with
  | none =>
    simp [H81.run, ClimateModel.run, H81.runFrame, ClimateModel.runFrame,
          h81_runLoop_eq, H81.forcingFactors, ClimateModel.forcingFactors]
  | some sdf =>
    cases h : ClimateModel.setIndexYEAR sdf with
    | error e => simp [H81.run, ClimateModel.run, h]
    | ok sdf2 =>
      simp [H81.run, ClimateModel.run, h, H81.runFrame, ClimateModel.runFrame,
            h81_runLoop_eq, H81.forcingFactors, ClimateModel.forcingFactors]

/-- C1 (the code diverges from it): evaluated on a one-step run with all
parameters 1, `Tm = 1`, `Td = 0` and zero forcing, the code first sets
`Td` to 1 and then computes the new `Tm` as 0 from that already-updated
value, whereas the simultaneous-update formula of the claim, which reads
the pre-update `Td`, gives -1. -/
theorem c1_tm_update_reads_updated_td :
    ClimateModel.run mC1 { cols := ["CO2"], rows := [{ idx := some 0, cells := [] }] }
        none [] false =
      .ok ({ mC1 with Td := 1, Tm := 0 },
           { agentCols := [],
             rows := [{ idx := some 0, forcingVals := [], F := 0,
                        deepT := 1, mixedT := 0, anom := 0 }] }) ∧
    mC1.Tm + mC1.dt * (0 - mC1.ht * (mC1.Tm - mC1.Td) / (1/2 * (mC1.dm + mC1.dd))
        - mC1.Tm / mC1.l) / mC1.Cm = -1 ∧
    (0 : ℚ) ≠ -1 := by
  refine ⟨?_, by simp [mC1]; norm_num, by norm_num⟩
  simp [ClimateModel.run, ClimateModel.runFrame, ClimateModel.runLoop,
        ClimateModel.stepRow, ClimateModel.stepTemps, ClimateModel.forcingFactors,
        ClimateModel.rowVal, ClimateModel.cfgVal, mC1]
  norm_num

/-- C2: the end-to-end default-parameter scenario: one CO2 row with raw
value 1 at year 2000 and scale factor 2 yields one result row with
`Forcing = 2`, `Deep dT = 0`, `Mixed dT = 31536000*2/421800000` and
`Pred Anom = Mixed dT - 0.07`. -/
theorem c2_end_to_end_default_scenario :
    ClimateModel.run ClimateModel.init histC2 none cfgC2 false =
      .ok ({ ClimateModel.init with Tm := 31536000 * 2 / 421800000, Td := 0 },
           { agentCols := [],
             rows := [{ idx := some 2000, forcingVals := [], F := 2,
                        deepT := 0, mixedT := 31536000 * 2 / 421800000,
                        anom := 31536000 * 2 / 421800000 - 7/100 }] }) := by
  norm_num [ClimateModel.run, ClimateModel.runFrame, ClimateModel.runLoop,
        ClimateModel.stepRow, ClimateModel.stepTemps, ClimateModel.forcingFactors,
        ClimateModel.rowVal, ClimateModel.cfgVal, ClimateModel.init, histC2, cfgC2,
        ClimateModel.lmbd_DEFAULT, ClimateModel.dm_DEFAULT, ClimateModel.dd_DEFAULT,
        ClimateModel.dt_DEFAULT, ClimateModel.Cm_DEFAULT, ClimateModel.Cd_DEFAULT,
        ClimateModel.ht_DEFAULT, ClimateModel.Tm_DEFAULT, ClimateModel.Td_DEFAULT,
        List.lookup]

/-- Splitting the row list splits the loop: the second half starts from
the state the first half ends in, and the result rows concatenate. -/
theorem cm_runLoop_append (cfg : List (String × ℚ)) (factors : List String)
    (retF : Bool) (xs ys : List ClimateModel.FRow) (m : ClimateModel.Model) :
    ClimateModel.runLoop cfg factors retF m (xs ++ ys) =
      ((ClimateModel.runLoop cfg factors retF
          (ClimateModel.runLoop cfg factors retF m xs).1 ys).1,
       (ClimateModel.runLoop cfg factors retF m xs).2 ++
         (ClimateModel.runLoop cfg factors retF
           (ClimateModel.runLoop cfg factors retF m xs).1 ys).2) := by
  induction xs generalizing m with
  | nil => simp [ClimateModel.runLoop]
  | cons r rest ih => simp [ClimateModel.runLoop, ih]

/-- The loop emits exactly one result row per input row. -/
theorem cm_runLoop_length (cfg : List (String × ℚ)) (factors : List String)
    (retF : Bool) (rows : List ClimateModel.FRow) :
    ∀ m : ClimateModel.Model,
      (ClimateModel.runLoop cfg factors retF m rows).2.length = rows.length := by
  induction rows with
  | nil => intro m; rfl
  | cons r rest ih => intro m; simp [ClimateModel.runLoop, ih]

/-- The loop never writes any attribute other than `Tm` and `Td`. -/
theorem cm_runLoop_preserves_params (cfg : List (String × ℚ)) (factors : List String)
    (retF : Bool) (rows : List ClimateModel.FRow) :
    ∀ m : ClimateModel.Model,
      (ClimateModel.runLoop cfg factors retF m rows).1.l = m.l ∧
      (ClimateModel.runLoop cfg factors retF m rows).1.K = m.K ∧
      (ClimateModel.runLoop cfg factors retF m rows).1.dm = m.dm ∧
      (ClimateModel.runLoop cfg factors retF m rows).1.dd = m.dd ∧
      (ClimateModel.runLoop cfg factors retF m rows).1.dt = m.dt ∧
      (ClimateModel.runLoop cfg factors retF m rows).1.Cm = m.Cm ∧
      (ClimateModel.runLoop cfg factors retF m rows).1.Cd = m.Cd ∧
      (ClimateModel.runLoop cfg factors retF m rows).1.ht = m.ht ∧
      (ClimateModel.runLoop cfg factors retF m rows).1.alpha = m.alpha ∧
      (ClimateModel.runLoop cfg factors retF m rows).1.a = m.a ∧
      (ClimateModel.runLoop cfg factors retF m rows).1.b = m.b ∧
      (ClimateModel.runLoop cfg factors retF m rows).1.pre_industrial = m.pre_industrial := by
  induction rows with
  | nil => intro m; exact ⟨rfl, rfl, rfl, rfl, rfl, rfl, rfl, rfl, rfl, rfl, rfl, rfl⟩
  | cons r rest ih =>
    intro m
    have h := ih (ClimateModel.stepRow cfg factors retF m r).1
    simpa [ClimateModel.runLoop, ClimateModel.stepRow, ClimateModel.stepTemps] using h

/-- C3: state continuity: running a prefix and then the suffix on the
carried-over state equals one run over the concatenated series, row for
row, with the same final state. -/
theorem c3_prefix_suffix_continuation (m : ClimateModel.Model) (cols : List String)
    (rs1 rs2 : List ClimateModel.FRow) (cfg : List (String × ℚ)) (retF : Bool) :
    ∃ m1 res1 m2 res2,
      ClimateModel.run m { cols := cols, rows := rs1 } none cfg retF = .ok (m1, res1) ∧
      ClimateModel.run m1 { cols := cols, rows := rs2 } none cfg retF = .ok (m2, res2) ∧
      res2.agentCols = res1.agentCols ∧
      ClimateModel.run m { cols := cols, rows := rs1 ++ rs2 } none cfg retF =
        .ok (m2, { agentCols := res1.agentCols, rows := res1.rows ++ res2.rows }) := by
  refine ⟨(ClimateModel.runFrame m { cols := cols, rows := rs1 } cfg retF).1,
          (ClimateModel.runFrame m { cols := cols, rows := rs1 } cfg retF).2,
          (ClimateModel.runFrame
            (ClimateModel.runFrame m { cols := cols, rows := rs1 } cfg retF).1
            { cols := cols, rows := rs2 } cfg retF).1,
          (ClimateModel.runFrame
            (ClimateModel.runFrame m { cols := cols, rows := rs1 } cfg retF).1
            { cols := cols, rows := rs2 } cfg retF).2,
          rfl, rfl, rfl, ?_⟩
  simp [ClimateModel.run, ClimateModel.runFrame, cm_runLoop_append]

/-- C9: a successful `run` call mutates only the reservoir temperatures
`Tm` and `Td`; every other attribute of the object is unchanged.  The
`Model` record lists the entire instance state, so there is no other
mutable state. -/
theorem c9_run_touches_only_reservoirs (m : ClimateModel.Model)
    (hist : ClimateModel.Frame) (ssps : Option ClimateModel.Frame)
    (cfg : List (String × ℚ)) (retF : Bool)
    (m2 : ClimateModel.Model) (res : ClimateModel.RunResult)
    (h : ClimateModel.run m hist ssps cfg retF = .ok (m2, res)) :
    m2.l = m.l ∧ m2.K = m.K ∧ m2.dm = m.dm ∧ m2.dd = m.dd ∧ m2.dt = m.dt ∧
    m2.Cm = m.Cm ∧ m2.Cd = m.Cd ∧ m2.ht = m.ht ∧ m2.alpha = m.alpha ∧
    m2.a = m.a ∧ m2.b = m.b ∧ m2.pre_industrial = m.pre_industrial := by
  cases ssps with
  | none =>
    have hm2 : m2 = (ClimateModel.runFrame m hist cfg retF).1 := by
      simp [ClimateModel.run] at h
      rw [Prod.ext_iff] at h
      exact h.1.symm
    rw [hm2]
    exact cm_runLoop_preserves_params _ _ _ _ m
  | some sdf =>
    cases hx : ClimateModel.setIndexYEAR sdf with
    | error e => simp [ClimateModel.run, hx] at h
    | ok sdf2 =>
      have hm2 : m2 =
          (ClimateModel.runFrame m (ClimateModel.concatFrames hist sdf2) cfg retF).1 := by
        simp [ClimateModel.run, hx] at h
        rw [Prod.ext_iff] at h
        exact h.1.symm
      rw [hm2]
      exact cm_runLoop_preserves_params _ _ _ _ m

/-- Witness for C9 at a concrete successful run. -/
theorem c9_witness :
    ClimateModel.init.l = ClimateModel.init.l ∧
    ClimateModel.init.K = ClimateModel.init.K ∧
    ClimateModel.init.dm = ClimateModel.init.dm ∧
    ClimateModel.init.dd = ClimateModel.init.dd ∧
    ClimateModel.init.dt = ClimateModel.init.dt ∧
    ClimateModel.init.Cm = ClimateModel.init.Cm ∧
    ClimateModel.init.Cd = ClimateModel.init.Cd ∧
    ClimateModel.init.ht = ClimateModel.init.ht ∧
    ClimateModel.init.alpha = ClimateModel.init.alpha ∧
    ClimateModel.init.a = ClimateModel.init.a ∧
    ClimateModel.init.b = ClimateModel.init.b ∧
    ClimateModel.init.pre_industrial = ClimateModel.init.pre_industrial := by
  have h := c9_run_touches_only_reservoirs ClimateModel.init
    { cols := [], rows := [] } none [] false
    (ClimateModel.runFrame ClimateModel.init { cols := [], rows := [] } [] false).1
    (ClimateModel.runFrame ClimateModel.init { cols := [], rows := [] } [] false).2
    rfl
  exact h

/-- C7: a scenario series without the `YEAR` time-index key makes `run`
fail with the lookup error before any step is processed; the `.error`
result carries no result table and no updated state, so the object state
is untouched. -/
theorem c7_missing_year_key_aborts (m : ClimateModel.Model)
    (hist ssps : ClimateModel.Frame) (cfg : List (String × ℚ)) (retF : Bool)
    (h : "YEAR" ∉ ssps.cols) :
    ClimateModel.run m hist (some ssps) cfg retF = .error "KeyError: YEAR" := by
  simp [ClimateModel.run, ClimateModel.setIndexYEAR, h]

/-- Witness for C7 at a concrete scenario frame lacking `YEAR`. -/
theorem c7_witness :
    "YEAR" ∉ (["CO2"] : List String) ∧
    ClimateModel.run ClimateModel.init histC2 (some histC2) cfgC2 false =
      .error "KeyError: YEAR" :=
  ⟨by decide, c7_missing_year_key_aborts ClimateModel.init histC2 histC2 cfgC2 false
    (by decide)⟩

/-- C6: when no agent is shared between the scaling configuration and
the forcing columns, `run` neither raises nor rejects: it returns a full
result table, one row per input row, with aggregate forcing 0 at every
step. -/
theorem c6_empty_intersection_proceeds (m : ClimateModel.Model)
    (hist : ClimateModel.Frame) (cfg : List (String × ℚ)) (retF : Bool)
    (hEmpty : ∀ k ∈ cfg.map Prod.fst, k ∉ hist.cols) :
    ∃ m2 res,
      ClimateModel.run m hist none cfg retF = .ok (m2, res) ∧
      res.rows.length = hist.rows.length ∧
      ∀ r ∈ res.rows, r.F = 0 := by
  have hfac : ClimateModel.forcingFactors cfg hist.cols = [] := by
    unfold ClimateModel.forcingFactors
    rw [List.filter_eq_nil_iff]
    intro k hk
    simpa using hEmpty k (List.mem_dedup.mp hk)
  refine ⟨(ClimateModel.runFrame m hist cfg retF).1,
          (ClimateModel.runFrame m hist cfg retF).2, rfl, ?_, ?_⟩
  · simp [ClimateModel.runFrame, cm_runLoop_length]
  · simp only [ClimateModel.runFrame, hfac]
    have : ∀ (rows : List ClimateModel.FRow) (m0 : ClimateModel.Model),
        ∀ r ∈ (ClimateModel.runLoop cfg [] retF m0 rows).2, r.F = 0 := by
      intro rows
      induction rows with
      | nil => intro m0 r hr; simp [ClimateModel.runLoop] at hr
      | cons x rest ih =>
        intro m0 r hr
        simp only [ClimateModel.runLoop, List.mem_cons] at hr
        cases hr with
        | inl h0 => rw [h0]; rfl
        | inr h1 => exact ih _ r h1
    exact this hist.rows m

/-- Witness for C6: scaling key CH4 against a CO2-only series. -/
theorem c6_witness :
    ∃ m2 res,
      ClimateModel.run ClimateModel.init histC2 none [("CH4", (3 : ℚ))] false =
        .ok (m2, res) ∧
      res.rows.length = histC2.rows.length ∧
      ∀ r ∈ res.rows, r.F = 0 :=
  c6_empty_intersection_proceeds ClimateModel.init histC2 [("CH4", (3 : ℚ))] false
    (by decide)

/-- The i-th result row aggregates exactly the i-th input row through
the fixed factor list. -/
theorem cm_runLoop_getD_F (cfg : List (String × ℚ)) (factors : List String)
    (retF : Bool) (rows : List ClimateModel.FRow) :
    ∀ (m : ClimateModel.Model) (i : Nat), i < rows.length →
      ((ClimateModel.runLoop cfg factors retF m rows).2.getD i noRow).F =
        (factors.map (fun k =>
          ((ClimateModel.rowVal (rows.getD i noFRow).cells k).getD 0) *
            ClimateModel.cfgVal cfg k)).sum := by
  induction rows with
  | nil => intro m i hi; simp at hi
  | cons r rest ih =>
    intro m i hi
    cases i with
    | zero => rfl
    | succ n =>
      have hn : n < rest.length := by simpa using hi
      simpa [ClimateModel.runLoop] using
        ih (ClimateModel.stepRow cfg factors retF m r).1 n hn

/-- C4: every step aggregates `F` as the sum, over the intersection of
the scaling-config keys with the series columns, of the (NaN-replaced)
raw value times the scale factor; the substitution uses only that step's
own row, and agents outside the intersection neither contribute nor
appear among the per-agent output columns when requested. -/
theorem c4_forcing_sum_over_intersection (m : ClimateModel.Model)
    (hist : ClimateModel.Frame) (cfg : List (String × ℚ)) (retF : Bool)
    (m2 : ClimateModel.Model) (res : ClimateModel.RunResult) (i : Nat) (k : String)
    (h : ClimateModel.run m hist none cfg retF = .ok (m2, res))
    (hi : i < hist.rows.length) :
    res.rows.length = hist.rows.length ∧
    (res.rows.getD i noRow).F =
      ((ClimateModel.forcingFactors cfg hist.cols).map
        (fun a => ((ClimateModel.rowVal (hist.rows.getD i noFRow).cells a).getD 0) *
          ClimateModel.cfgVal cfg a)).sum ∧
    (k ∈ ClimateModel.forcingFactors cfg hist.cols ↔
      k ∈ cfg.map Prod.fst ∧ k ∈ hist.cols) ∧
    (retF = true → res.agentCols = ClimateModel.forcingFactors cfg hist.cols) ∧
    (¬ (k ∈ cfg.map Prod.fst ∧ k ∈ hist.cols) → k ∉ res.agentCols) := by
  have hres : res = (ClimateModel.runFrame m hist cfg retF).2 := by
    simp [ClimateModel.run] at h
    rw [Prod.ext_iff] at h
    exact h.2.symm
  subst hres
  refine ⟨by simp [ClimateModel.runFrame, cm_runLoop_length], ?_, ?_, ?_, ?_⟩
  · simpa [ClimateModel.runFrame] using
      cm_runLoop_getD_F cfg (ClimateModel.forcingFactors cfg hist.cols) retF
        hist.rows m i hi
  · simp [ClimateModel.forcingFactors, List.mem_filter, List.mem_dedup]
  · intro hret
    simp [ClimateModel.runFrame, hret]
  · intro hnk hmem
    apply hnk
    rcases Bool.eq_false_or_eq_true retF with hT | hF
    · simp only [ClimateModel.runFrame, hT, if_true] at hmem
      simpa [ClimateModel.forcingFactors, List.mem_filter, List.mem_dedup] using hmem
    · simp [ClimateModel.runFrame, hF] at hmem

/-- Witness for C4: CO2 is scaled and NaN-substituted, CH4 (configured
but absent from the columns) is excluded from the per-agent columns. -/
theorem c4_witness :
    (ClimateModel.runFrame ClimateModel.init histC4 cfgC4 true).2.rows.length =
      histC4.rows.length ∧
    ((ClimateModel.runFrame ClimateModel.init histC4 cfgC4 true).2.rows.getD 0 noRow).F =
      ((ClimateModel.forcingFactors cfgC4 histC4.cols).map
        (fun a => ((ClimateModel.rowVal (histC4.rows.getD 0 noFRow).cells a).getD 0) *
          ClimateModel.cfgVal cfgC4 a)).sum ∧
    ("CH4" ∈ ClimateModel.forcingFactors cfgC4 histC4.cols ↔
      "CH4" ∈ cfgC4.map Prod.fst ∧ "CH4" ∈ histC4.cols) ∧
    (true = true →
      (ClimateModel.runFrame ClimateModel.init histC4 cfgC4 true).2.agentCols =
        ClimateModel.forcingFactors cfgC4 histC4.cols) ∧
    (¬ ("CH4" ∈ cfgC4.map Prod.fst ∧ "CH4" ∈ histC4.cols) →
      "CH4" ∉ (ClimateModel.runFrame ClimateModel.init histC4 cfgC4 true).2.agentCols) :=
  c4_forcing_sum_over_intersection ClimateModel.init histC4 cfgC4 true
    (ClimateModel.runFrame ClimateModel.init histC4 cfgC4 true).1
    (ClimateModel.runFrame ClimateModel.init histC4 cfgC4 true).2
    0 "CH4" rfl (by decide)

/-- C5 as stated fails on the code: with every scaling factor 0 and all
parameters positive (here 1, except `dt = 10`) and both reservoirs at 1,
one run step leaves `Td` at 1 and throws `Tm` from 1 to -9, moving it
away from 0 instead of toward it. -/
theorem c5_counterexample_overshoot :
    ClimateModel.run mC5 histC2 none cfgC5 false =
      .ok ({ mC5 with Td := 1, Tm := -9 },
           { agentCols := [],
             rows := [{ idx := some 2000, forcingVals := [], F := 0,
                        deepT := 1, mixedT := -9, anom := -9 }] }) ∧
    ¬ (|(-9 : ℚ)| ≤ |mC5.Tm|) := by
  constructor
  · norm_num [ClimateModel.run, ClimateModel.runFrame, ClimateModel.runLoop,
      ClimateModel.stepRow, ClimateModel.stepTemps, ClimateModel.forcingFactors,
      ClimateModel.rowVal, ClimateModel.cfgVal, mC5, histC2, cfgC5, List.lookup]
  · norm_num [mC5]

/-- A convex combination of two values bounded by M in absolute value is
bounded by M. -/
theorem abs_convex_combo_le (c x y M : ℚ) (hc : 0 ≤ c) (hc1 : c ≤ 1)
    (hx : |x| ≤ M) (hy : |y| ≤ M) : |(1 - c) * x + c * y| ≤ M := by
  have h0 : (0:ℚ) ≤ 1 - c := by linarith
  have h1 := abs_add ((1 - c) * x) (c * y)
  rw [abs_mul, abs_mul, abs_of_nonneg h0, abs_of_nonneg hc] at h1
  nlinarith [mul_le_mul_of_nonneg_left hx h0, mul_le_mul_of_nonneg_left hy hc]

/-- A subconvex combination (nonnegative coefficients summing to at most
one) of two values bounded by M in absolute value is bounded by M. -/
theorem abs_subconvex_combo_le (c d x y M : ℚ) (hc : 0 ≤ c) (hd : 0 ≤ d)
    (hcd : c + d ≤ 1) (hx : |x| ≤ M) (hy : |y| ≤ M) :
    |(1 - c - d) * x + c * y| ≤ M := by
  have h0 : (0:ℚ) ≤ 1 - c - d := by linarith
  have hM : (0:ℚ) ≤ M := le_trans (abs_nonneg x) hx
  have h1 := abs_add ((1 - c - d) * x) (c * y)
  rw [abs_mul, abs_mul, abs_of_nonneg h0, abs_of_nonneg hc] at h1
  nlinarith [mul_le_mul_of_nonneg_left hx h0, mul_le_mul_of_nonneg_left hy hc,
    mul_nonneg hd hM]

/-- One zero-forcing step never increases `max |Tm| |Td|`, provided the
two explicit-Euler step-size bounds hold. -/
theorem cm_stepTemps_zero_no_overshoot (m : ClimateModel.Model)
    (hl : 0 < m.l) (hCm : 0 < m.Cm) (hCd : 0 < m.Cd) (hht : 0 < m.ht)
    (hdm : 0 < m.dm) (hdd : 0 < m.dd) (hdt : 0 < m.dt)
    (hb : m.dt * m.ht / (1/2 * m.Cd * (m.dm + m.dd)) ≤ 1)
    (hgd : m.dt * m.ht / (1/2 * (m.dm + m.dd)) / m.Cm + m.dt / (m.l * m.Cm) ≤ 1) :
    max |(ClimateModel.stepTemps m 0).Tm| |(ClimateModel.stepTemps m 0).Td| ≤
      max |m.Tm| |m.Td| := by
  have hl0 : m.l ≠ 0 := ne_of_gt hl
  have hCm0 : m.Cm ≠ 0 := ne_of_gt hCm
  have hCd0 : m.Cd ≠ 0 := ne_of_gt hCd
  have hsum : m.dm + m.dd ≠ 0 := ne_of_gt (by linarith)
  have hb0 : 0 ≤ m.dt * m.ht / (1/2 * m.Cd * (m.dm + m.dd)) :=
    div_nonneg (mul_nonneg hdt.le hht.le)
      (mul_nonneg (mul_nonneg (by norm_num) hCd.le) (by linarith))
  have hg0 : 0 ≤ m.dt * m.ht / (1/2 * (m.dm + m.dd)) / m.Cm :=
    div_nonneg (div_nonneg (mul_nonneg hdt.le hht.le)
      (mul_nonneg (by norm_num) (by linarith))) hCm.le
  have hd0 : 0 ≤ m.dt / (m.l * m.Cm) :=
    div_nonneg hdt.le (mul_nonneg hl.le hCm.le)
  have hTd : (ClimateModel.stepTemps m 0).Td =
      (1 - m.dt * m.ht / (1/2 * m.Cd * (m.dm + m.dd))) * m.Td +
      (m.dt * m.ht / (1/2 * m.Cd * (m.dm + m.dd))) * m.Tm := by
    show m.Td + m.dt * m.ht * (m.Tm - m.Td) / (1/2 * m.Cd * (m.dm + m.dd)) = _
    field_simp
    ring
  have key : ∀ t : ℚ,
      m.Tm + m.dt * (0 - m.ht * (m.Tm - t) / (1/2 * (m.dm + m.dd)) - m.Tm / m.l) / m.Cm =
      (1 - m.dt * m.ht / (1/2 * (m.dm + m.dd)) / m.Cm - m.dt / (m.l * m.Cm)) * m.Tm +
      (m.dt * m.ht / (1/2 * (m.dm + m.dd)) / m.Cm) * t := by
    intro t
    field_simp
    ring
  have hTm : (ClimateModel.stepTemps m 0).Tm =
      (1 - m.dt * m.ht / (1/2 * (m.dm + m.dd)) / m.Cm - m.dt / (m.l * m.Cm)) * m.Tm +
      (m.dt * m.ht / (1/2 * (m.dm + m.dd)) / m.Cm) * (ClimateModel.stepTemps m 0).Td :=
    key ((ClimateModel.stepTemps m 0).Td)
  have hTdle : |(ClimateModel.stepTemps m 0).Td| ≤ max |m.Tm| |m.Td| := by
    rw [hTd]
    exact abs_convex_combo_le _ _ _ _ hb0 hb (le_max_right _ _) (le_max_left _ _)
  have hTmle : |(ClimateModel.stepTemps m 0).Tm| ≤ max |m.Tm| |m.Td| := by
    rw [hTm]
    exact abs_subconvex_combo_le _ _ _ _ _ hg0 hd0 hgd (le_max_left _ _) hTdle
  exact max_le hTmle hTdle

/-- An all-zero scaling configuration evaluates to 0 on every key. -/
theorem cm_cfgVal_zero : ∀ (cfg : List (String × ℚ)), (∀ p ∈ cfg, p.2 = 0) →
    ∀ k, ClimateModel.cfgVal cfg k = 0 := by
  intro cfg
  induction cfg with
  | nil => intro _ k; rfl
  | cons p rest ih =>
    intro hz k
    by_cases hpk : k == p.1
    · simp [ClimateModel.cfgVal, List.lookup, hpk]
      exact hz p (List.mem_cons_self p rest)
    · simp only [ClimateModel.cfgVal, List.lookup, hpk]
      exact ih (fun q hq => hz q (List.mem_cons_of_mem p hq)) k

/-- Under an all-zero scaling configuration the aggregate forcing of any
row is 0. -/
theorem cm_sum_zero_of_cfg_zero (cfg : List (String × ℚ))
    (hz : ∀ p ∈ cfg, p.2 = 0) (cells : List (String × ClimateModel.Cell)) :
    ∀ factors : List String,
      (factors.map (fun k =>
        ((ClimateModel.rowVal cells k).getD 0) * ClimateModel.cfgVal cfg k)).sum = 0 := by
  intro factors
  induction factors with
  | nil => rfl
  | cons k rest ih => simp [cm_cfgVal_zero cfg hz k, ih]

/-- C5 amended: with every scaling factor 0 (so `F = 0` at each step)
and parameters satisfying the two explicit-Euler step-size bounds, which
the defaults do, each further `run` step never increases
`max |Tm| |Td|`: the state relaxes toward 0 without overshoot. -/
theorem c5_amended_zero_forcing_no_overshoot (m m1 m2 : ClimateModel.Model)
    (cols : List String) (rs1 : List ClimateModel.FRow) (r : ClimateModel.FRow)
    (cfg : List (String × ℚ)) (retF : Bool)
    (res1 res2 : ClimateModel.RunResult)
    (hzero : ∀ p ∈ cfg, p.2 = 0)
    (hl : 0 < m.l) (hCm : 0 < m.Cm) (hCd : 0 < m.Cd) (hht : 0 < m.ht)
    (hdm : 0 < m.dm) (hdd : 0 < m.dd) (hdt : 0 < m.dt)
    (hb : m.dt * m.ht / (1/2 * m.Cd * (m.dm + m.dd)) ≤ 1)
    (hgd : m.dt * m.ht / (1/2 * (m.dm + m.dd)) / m.Cm + m.dt / (m.l * m.Cm) ≤ 1)
    (h1 : ClimateModel.run m { cols := cols, rows := rs1 } none cfg retF = .ok (m1, res1))
    (h2 : ClimateModel.run m { cols := cols, rows := rs1 ++ [r] } none cfg retF =
      .ok (m2, res2)) :
    max |m2.Tm| |m2.Td| ≤ max |m1.Tm| |m1.Td| := by
  have hm1 : m1 =
      (ClimateModel.runLoop cfg (ClimateModel.forcingFactors cfg cols) retF m rs1).1 := by
    simp [ClimateModel.run, ClimateModel.runFrame] at h1
    exact h1.1.symm
  have hm2 : m2 =
      (ClimateModel.runLoop cfg (ClimateModel.forcingFactors cfg cols) retF m
        (rs1 ++ [r])).1 := by
    simp [ClimateModel.run, ClimateModel.runFrame] at h2
    exact h2.1.symm
  have hstep : m2 = ClimateModel.stepTemps m1 0 := by
    rw [hm2, cm_runLoop_append, ← hm1]
    simp [ClimateModel.runLoop, ClimateModel.stepRow,
      cm_sum_zero_of_cfg_zero cfg hzero]
  obtain ⟨el, eK, edm, edd, edt, eCm, eCd, eht, eal, ea2, eb2, ep⟩ :=
    cm_runLoop_preserves_params cfg (ClimateModel.forcingFactors cfg cols) retF rs1 m
  rw [hstep]
  apply cm_stepTemps_zero_no_overshoot
  · rw [hm1, el]; exact hl
  · rw [hm1, eCm]; exact hCm
  · rw [hm1, eCd]; exact hCd
  · rw [hm1, eht]; exact hht
  · rw [hm1, edm]; exact hdm
  · rw [hm1, edd]; exact hdd
  · rw [hm1, edt]; exact hdt
  · rw [hm1, edt, eht, eCd, edm, edd]; exact hb
  · rw [hm1, edt, eht, edm, edd, eCm, el]; exact hgd

/-- Witness for the amended C5: one zero-forcing step from the default
parameters with `Tm = 1` does not increase `max |Tm| |Td|`. -/
theorem c5_amended_witness :
    max |(ClimateModel.runFrame mW5
        { cols := ["CO2"], rows := [{ idx := some 2000, cells := [("CO2", some 1)] }] }
        cfgC5 false).1.Tm|
      |(ClimateModel.runFrame mW5
        { cols := ["CO2"], rows := [{ idx := some 2000, cells := [("CO2", some 1)] }] }
        cfgC5 false).1.Td| ≤
    max |mW5.Tm| |mW5.Td| :=
  c5_amended_zero_forcing_no_overshoot mW5 mW5
    (ClimateModel.runFrame mW5
      { cols := ["CO2"], rows := [{ idx := some 2000, cells := [("CO2", some 1)] }] }
      cfgC5 false).1
    ["CO2"] [] { idx := some 2000, cells := [("CO2", some 1)] } cfgC5 false
    { agentCols := [], rows := [] }
    (ClimateModel.runFrame mW5
      { cols := ["CO2"], rows := [{ idx := some 2000, cells := [("CO2", some 1)] }] }
      cfgC5 false).2
    (by intro p hp; simp [cfgC5] at hp; rw [hp])
    (by norm_num [mW5, ClimateModel.init, ClimateModel.lmbd_DEFAULT])
    (by norm_num [mW5, ClimateModel.init, ClimateModel.Cm_DEFAULT])
    (by norm_num [mW5, ClimateModel.init, ClimateModel.Cd_DEFAULT])
    (by norm_num [mW5, ClimateModel.init, ClimateModel.ht_DEFAULT])
    (by norm_num [mW5, ClimateModel.init, ClimateModel.dm_DEFAULT])
    (by norm_num [mW5, ClimateModel.init, ClimateModel.dd_DEFAULT])
    (by norm_num [mW5, ClimateModel.init, ClimateModel.dt_DEFAULT])
    (by norm_num [mW5, ClimateModel.init, ClimateModel.dt_DEFAULT,
      ClimateModel.ht_DEFAULT, ClimateModel.Cd_DEFAULT, ClimateModel.dm_DEFAULT,
      ClimateModel.dd_DEFAULT])
    (by norm_num [mW5, ClimateModel.init, ClimateModel.dt_DEFAULT,
      ClimateModel.ht_DEFAULT, ClimateModel.dm_DEFAULT, ClimateModel.dd_DEFAULT,
      ClimateModel.Cm_DEFAULT, ClimateModel.lmbd_DEFAULT])
    rfl rfl
